import Mathlib

/-!
Verification of the swgoh-comlink client core of the thrawns-gambit repository
(`src/utils/comlink/__init__.py`, `src/utils/comlink/types/player/__init__.py`,
`src/bot.py`), as a shallow embedding: the payload builders, the HMAC signing
performed in `SwgohComlink._post`, the leaderboard league/division
normalization, the localization line parser and the `on_ready` startup
pipeline are translated into executable Lean definitions, and the claimed
properties are settled against them.

External primitives that the Python code calls (the SHA-256 and MD5
compression functions from `hashlib`/`hmac`, and the network / base64 / zip
steps of the localization pipeline) are not part of the repository; they are
taken as parameters of the corresponding definitions, while everything the
repository itself computes (byte feeding order, header formatting, JSON
serialization with explicit separators as done by `json.dumps`, truthiness
tests, table lookups, line splitting) is embedded concretely.
-/

namespace ThrawnsGambit

/-! ## Bytes, hex and Python string helpers -/

/-- UTF-8 encoding of a single character, as `str.encode()` produces it,
byte values as natural numbers below 256. -/
def char_utf8 (c : Char) : List Nat :=
  let n := c.toNat
  if n < 0x80 then [n]
  else if n < 0x800 then [0xc0 + n / 64, 0x80 + n % 64]
  else if n < 0x10000 then [0xe0 + n / 4096, 0x80 + n / 64 % 64, 0x80 + n % 64]
  else [0xf0 + n / 262144, 0x80 + n / 4096 % 64, 0x80 + n / 64 % 64, 0x80 + n % 64]

/-- UTF-8 bytes of a string: the embedding of Python `s.encode()`. -/
def str_bytes (s : String) : List Nat :=
  (s.toList.map char_utf8).flatten

/-- Lowercase hexadecimal digit for a value below 16. -/
def hex_digit (n : Nat) : Char :=
  if n < 10 then Char.ofNat (48 + n) else Char.ofNat (87 + n)

/-- Two lowercase hex characters for one byte, as `hexdigest` renders each byte. -/
def hex_byte (n : Nat) : List Char :=
  [hex_digit (n / 16 % 16), hex_digit (n % 16)]

/-- Lowercase hex string of a byte sequence: the embedding of `.hexdigest()`
applied to a digest whose raw bytes are `bs`. -/
def hex_of_bytes (bs : List Nat) : String :=
  ⟨(bs.map hex_byte).flatten⟩

/-- Four lowercase hex digits, used by `json.dumps` for `\u` escapes. -/
def hex4 (n : Nat) : String :=
  ⟨[hex_digit (n / 4096 % 16), hex_digit (n / 256 % 16), hex_digit (n / 16 % 16),
    hex_digit (n % 16)]⟩

/-- ASCII lowercasing of a string, the embedding of Python `str.lower()` on the
ASCII inputs used by the client (league and division names). -/
def py_lower (s : String) : String :=
  ⟨s.toList.map Char.toLower⟩

/-- Python truthiness of an optional string argument: `None` and the empty
string are falsy. -/
def py_truthy_opt_str (o : Option String) : Bool :=
  match o with
  | none => false
  | some s => !s.isEmpty

/-- Python f-string formatting of an optional value, `f"{x}"`: `None` renders
as the four characters `None`. -/
def py_format_opt_str (o : Option String) : String :=
  match o with
  | none => "None"
  | some s => s

/-! ## JSON values and `json.dumps` serialization

The request envelopes built by the client contain only objects, strings,
integers, booleans, arrays and `None`, so JSON numbers are modelled as
integers. Objects keep insertion order, as Python dicts do. -/

/-- JSON values as manipulated by the client code. -/
inductive Json where
  | null
  | bool (b : Bool)
  | num (n : Int)
  | str (s : String)
  | arr (elems : List Json)
  | obj (entries : List (String × Json))

/-- Escape of one character inside a JSON string literal, following the
`ensure_ascii=True` behaviour of `json.dumps`: quote, backslash and every
character outside the printable ASCII range `0x20`–`0x7e` are escaped, with
the five short escapes for backspace, tab, newline, form feed and carriage
return, and surrogate pairs above the basic multilingual plane. -/
def json_escape_char (c : Char) : String :=
  let n := c.toNat
  if c = '"' then "\\\""
  else if c = '\\' then "\\\\"
  else if n = 8 then "\\b"
  else if n = 9 then "\\t"
  else if n = 10 then "\\n"
  else if n = 12 then "\\f"
  else if n = 13 then "\\r"
  else if n < 0x20 ∨ n > 0x7e then
    if n < 0x10000 then "\\u" ++ hex4 n
    else "\\u" ++ hex4 (0xd800 + (n - 0x10000) / 0x400) ++
         "\\u" ++ hex4 (0xdc00 + (n - 0x10000) % 0x400)
  else String.singleton c

/-- JSON string literal for `s`, as `json.dumps` renders it. -/
def json_quote (s : String) : String :=
  "\"" ++ String.join (s.toList.map json_escape_char) ++ "\""

mutual

/-- Serialization of a JSON value with explicit item and key separators: the
embedding of `json.dumps(v, separators=(isep, ksep))`. Python's default
separators are `", "` and `": "`; the client signs with `(",", ":")`. -/
def dumps_val (isep ksep : String) : Json → String
  | .null => "null"
  | .bool true => "true"
  | .bool false => "false"
  | .num n => toString n
  | .str s => json_quote s
  | .arr elems => "[" ++ dumps_elems isep ksep elems ++ "]"
  | .obj entries => "\x7b" ++ dumps_entries isep ksep entries ++ "\x7d"

/-- Array elements joined by the item separator. -/
def dumps_elems (isep ksep : String) : List Json → String
  | [] => ""
  | [e] => dumps_val isep ksep e
  | e :: rest => dumps_val isep ksep e ++ isep ++ dumps_elems isep ksep rest

/-- Object entries, each key quoted and joined to its value by the key
separator, entries joined by the item separator, in insertion order. -/
def dumps_entries (isep ksep : String) : List (String × Json) → String
  | [] => ""
  | [(k, v)] => json_quote k ++ ksep ++ dumps_val isep ksep v
  | (k, v) :: rest =>
      json_quote k ++ ksep ++ dumps_val isep ksep v ++ isep ++
        dumps_entries isep ksep rest

end

/-- Compact serialization, `json.dumps(v, separators=(",", ":"))`, used by
`_post` for the string whose MD5 digest enters the signature. -/
def dumps_compact (v : Json) : String :=
  dumps_val "," ":" v

/-- Default serialization, `json.dumps(v)` with the default separators
`(", ", ": ")`, which is what `aiohttp` applies to the `json=payload`
argument when transmitting the body. -/
def dumps_default (v : Json) : String :=
  dumps_val ", " ": " v

/-- Python truthiness of a JSON value, used by the `if payload:` test in
`_post`: empty containers, empty strings, zero, `False` and `None` are falsy. -/
def py_truthy_json (v : Json) : Bool :=
  match v with
  | .null => false
  | .bool b => b
  | .num n => n != 0
  | .str s => !s.isEmpty
  | .arr elems => !elems.isEmpty
  | .obj entries => !entries.isEmpty

/-- Top-level member lookup in a JSON object, the embedding of
`d[k]` / `k in d.keys()` on a decoded dict. -/
def json_member (v : Json) (k : String) : Option Json :=
  match v with
  | .obj entries => entries.lookup k
  | _ => none

/-- Dict assignment `d[k] = v` on an insertion-ordered association list:
an existing key keeps its position and gets the new value, a new key is
appended at the end, exactly as a Python dict behaves. -/
def obj_set (entries : List (String × Json)) (k : String) (v : Json) :
    List (String × Json) :=
  if entries.any (fun e => e.1 == k) then
    entries.map (fun e => if e.1 == k then (k, v) else e)
  else entries ++ [(k, v)]

/-! ## Payload builders

Each definition embeds the envelope construction of the correspondingly
named method of `SwgohComlink` (`src/utils/comlink/__init__.py`); the dict
display order of the source is kept, since `json.dumps` serializes dicts in
insertion order. -/

/-- Embedding of `_get_player_payload` (lines 24–43). The ally code may be an
`int` or `str` in Python; both render through `f"{allycode}"`, so it is
modelled by its rendered string. The guard is the source's
`if not allycode and player_id:`. -/
def get_player_payload (allycode : Option String) (player_id : Option String)
    (enums : Bool) : Json :=
  let inner : List (String × Json) :=
    if !py_truthy_opt_str allycode && py_truthy_opt_str player_id then
      [("playerId", Json.str (py_format_opt_str player_id))]
    else
      [("allyCode", Json.str (py_format_opt_str allycode))]
  Json.obj [("payload", Json.obj inner), ("enums", Json.bool enums)]

/-- Embedding of the `get_events` envelope (line 203). -/
def get_events_payload (enums : Bool) : Json :=
  Json.obj [("payload", Json.obj []), ("enums", Json.bool enums)]

/-- Embedding of the `get_game_data` envelope (lines 228–235). -/
def get_game_data_payload (game_version : String) (include_pve_units : Bool)
    (request_segment : Int) (enums : Bool) : Json :=
  Json.obj
    [("payload", Json.obj
        [("version", Json.str game_version),
         ("includePveUnits", Json.bool include_pve_units),
         ("requestSegment", Json.num request_segment)]),
     ("enums", Json.bool enums)]

/-- Embedding of the `get_localization` envelope (line 256). -/
def get_localization_payload (id : String) (unzip : Bool) (enums : Bool) : Json :=
  Json.obj
    [("unzip", Json.bool unzip), ("enums", Json.bool enums),
     ("payload", Json.obj [("id", Json.str id)])]

/-- Embedding of the `get_game_metadata` envelope (lines 286–289): a truthy
`client_specs` dict is wrapped under `payload`, otherwise the envelope is the
bare empty dict `{}` — in particular it then has no `payload` key at all. -/
def get_game_metadata_payload (client_specs : List (String × Json))
    (enums : Bool) : Json :=
  if !client_specs.isEmpty then
    Json.obj
      [("payload", Json.obj [("client_specs", Json.obj client_specs)]),
       ("enums", Json.bool enums)]
  else
    Json.obj []

/-- Embedding of the `get_player_arena` envelope (lines 338–341): the player
payload with `playerDetailsOnly` assigned into the inner `payload` dict. -/
def get_player_arena_payload (allycode : Option String)
    (player_id : Option String) (player_details_only : Bool) (enums : Bool) :
    Json :=
  match get_player_payload allycode player_id enums with
  | .obj entries =>
      let inner := match entries.lookup "payload" with
        | some (.obj ps) => ps
        | _ => []
      Json.obj (obj_set entries "payload"
        (Json.obj (obj_set inner "playerDetailsOnly" (Json.bool player_details_only))))
  | v => v

/-- Embedding of the `get_guild` envelope (lines 365–371). -/
def get_guild_payload (guild_id : String)
    (include_recent_guild_activity_info : Bool) (enums : Bool) : Json :=
  Json.obj
    [("payload", Json.obj
        [("guildId", Json.str guild_id),
         ("includeRecentGuildActivityInfo",
           Json.bool include_recent_guild_activity_info)]),
     ("enums", Json.bool enums)]

/-- Embedding of the `get_guilds_by_name` envelope (lines 392–400). -/
def get_guilds_by_name_payload (name : String) (start_index : Int)
    (count : Int) (enums : Bool) : Json :=
  Json.obj
    [("payload", Json.obj
        [("name", Json.str name), ("filterType", Json.num 4),
         ("startIndex", Json.num start_index), ("count", Json.num count)]),
     ("enums", Json.bool enums)]

/-- Embedding of the `get_guilds_by_criteria` envelope (lines 430–438). -/
def get_guilds_by_criteria_payload (search_criteria : List (String × Json))
    (start_index : Int) (count : Int) (enums : Bool) : Json :=
  Json.obj
    [("payload", Json.obj
        [("searchCriteria", Json.obj search_criteria),
         ("filterType", Json.num 5), ("startIndex", Json.num start_index),
         ("count", Json.num count)]),
     ("enums", Json.bool enums)]

/-- Embedding of the `get_guild_leaderboard` envelope (lines 520–522). -/
def get_guild_leaderboard_payload (leaderboard_id : List Json) (count : Int)
    (enums : Bool) : Json :=
  Json.obj
    [("payload", Json.obj
        [("leaderboardId", Json.arr leaderboard_id), ("count", Json.num count)]),
     ("enums", Json.bool enums)]

/-- Embedding of `get_guild`'s post-processing of the decoded response
(lines 372–375): if the top-level key `guild` is present its value alone is
returned, otherwise the whole response dict is returned unchanged. -/
def get_guild_result (response : List (String × Json)) : Json :=
  match response.lookup "guild" with
  | some v => v
  | none => Json.obj response

/-! ## Leaderboard league and division normalization -/

/-- A Python value that is either an `int` or a `str`, the declared type of
the `league` and `division` arguments of `get_leaderboard`. -/
inductive PyPrim where
  | pint (i : Int)
  | pstr (s : String)

/-- The fixed league table local to `get_leaderboard` (lines 473–479). -/
def leagues : List (String × Int) :=
  [("kyber", 100), ("aurodium", 80), ("chromium", 60), ("bronzium", 40),
   ("carbonite", 20)]

/-- The fixed division table local to `get_leaderboard` (line 480). -/
def divisions : List (String × Int) :=
  [("1", 25), ("2", 20), ("3", 15), ("4", 10), ("5", 5)]

/-- Subscript access `table[k]` on one of the fixed tables: a missing key
raises `KeyError`, modelled as the error case. -/
def table_get (table : List (String × Int)) (k : String) : Except String Int :=
  match table with
  | [] => Except.error ("KeyError: " ++ k)
  | (a, v) :: rest => if a = k then Except.ok v else table_get rest k

/-- Embedding of line 482–483: a string league name is lowercased and looked
up in the league table (raising `KeyError` when absent); any other value
passes through untouched. -/
def normalize_league (league : Option PyPrim) : Except String (Option PyPrim) :=
  match league with
  | some (.pstr s) =>
      (table_get leagues (py_lower s)).map (fun v => some (PyPrim.pint v))
  | x => Except.ok x

/-- Embedding of lines 484–487: an integer division whose decimal rendering
is a single character is replaced through the division table; a string
division is lowercased and looked up; other values pass through. The two
source `if`s run in order, and the first rewrites an `int` to an `int`, so at
most one lookup fires. -/
def normalize_division (division : Option PyPrim) :
    Except String (Option PyPrim) :=
  match division with
  | some (.pint i) =>
      if (toString i).length = 1 then
        (table_get divisions (py_lower (toString i))).map
          (fun v => some (PyPrim.pint v))
      else Except.ok (some (PyPrim.pint i))
  | some (.pstr s) =>
      (table_get divisions (py_lower s)).map (fun v => some (PyPrim.pint v))
  | none => Except.ok none

/-- JSON value inserted for an optional string argument: Python `None`
serializes as JSON `null`. -/
def json_of_opt_str (o : Option String) : Json :=
  match o with
  | none => Json.null
  | some s => Json.str s

/-- JSON value inserted for an optional int-or-str argument. -/
def json_of_opt_prim (o : Option PyPrim) : Json :=
  match o with
  | none => Json.null
  | some (.pint i) => Json.num i
  | some (.pstr s) => Json.str s

/-- Embedding of `get_leaderboard` (lines 444–501) up to the dispatch to
`_post`: the league/division translation runs first (and can raise
`KeyError`), the envelope is then assembled, with the type-4 and type-6
extra fields taken verbatim from the arguments — absent ones become `null` —
and an `Except.ok` result is exactly a payload handed to the transport. -/
def get_leaderboard_payload (leaderboard_type : Int)
    (league division : Option PyPrim)
    (event_instance_id group_id : Option String) (enums : Bool) :
    Except String Json := do
  let league ← normalize_league league
  let division ← normalize_division division
  let base : List (String × Json) :=
    [("leaderboardType", Json.num leaderboard_type)]
  let inner :=
    if leaderboard_type = 4 then
      base ++ [("eventInstanceId", json_of_opt_str event_instance_id),
               ("groupId", json_of_opt_str group_id)]
    else if leaderboard_type = 6 then
      base ++ [("league", json_of_opt_prim league),
               ("division", json_of_opt_prim division)]
    else base
  Except.ok (Json.obj [("payload", Json.obj inner), ("enums", Json.bool enums)])

/-! ## The signing performed in `SwgohComlink._post`

The incremental `hmac.new`/`update`/`hexdigest` interface of the Python
standard library is modelled by a state that records the key and the bytes
fed so far; `update` appends (the documented streaming semantics), and
`hexdigest` applies the HMAC-SHA256 compression — an external primitive,
passed as a parameter — to the accumulated message. -/

/-- State of a `hmac.new(key=..., digestmod=hashlib.sha256)` object. -/
structure HmacState where
  key : List Nat
  acc : List Nat

/-- Embedding of `hmac.new`: fresh state with an empty message. -/
def hmac_new (key : List Nat) : HmacState :=
  ⟨key, []⟩

/-- Embedding of `hmac_obj.update(m)`: the documented semantics
`m.update(a); m.update(b)` equivalent to `m.update(a + b)`. -/
def HmacState.update (h : HmacState) (m : List Nat) : HmacState :=
  ⟨h.key, h.acc ++ m⟩

/-- Embedding of `hmac_obj.hexdigest()`, with the HMAC-SHA256 compression
function `sha` (keyed digest of a message) taken as a parameter. -/
def HmacState.hexdigest (sha : List Nat → List Nat → List Nat)
    (h : HmacState) : String :=
  hex_of_bytes (sha h.key h.acc)

/-- The string whose UTF-8 bytes are MD5-hashed inside `_post`
(lines 136–139): a truthy payload is re-serialized with the compact
separators `(",", ":")`, a falsy or absent one as `dumps({})`, which is the
two characters of the empty object either way. -/
def signed_body_string (payload : Option Json) : String :=
  match payload with
  | some p => if py_truthy_json p then dumps_compact p else dumps_default (Json.obj [])
  | none => dumps_default (Json.obj [])

/-- The body bytes actually transmitted by line 147,
`session.post(post_url, json=payload, headers=req_headers)`: `aiohttp`
serializes the `json=` argument with `json.dumps` and its default
separators; `json=None` sends no JSON body at all. -/
def transmitted_body_string (payload : Option Json) : Option String :=
  payload.map dumps_default

/-- Embedding of the header construction of `_post` (lines 121–145): with
signing enabled, the `X-Date` header carries the request time verbatim and
the `Authorization` header is assembled from the access key and the
hex digest of the HMAC object after the four `update` calls — request time,
the literal `POST`, the endpoint path with its leading slash, and the hex
MD5 digest of the serialized body. `sha` and `md5` are the external hash
primitives (`hmac`/`hashlib`). -/
def post_headers (sha : List Nat → List Nat → List Nat)
    (md5 : List Nat → List Nat) (secret_key access_key req_time endpoint : String)
    (payload : Option Json) (use_hmac : Bool) : List (String × String) :=
  if use_hmac then
    let h0 := hmac_new (str_bytes secret_key)
    let h1 := h0.update (str_bytes req_time)
    let h2 := h1.update (str_bytes "POST")
    let h3 := h2.update (str_bytes ("/" ++ endpoint))
    let payload_hash_digest := hex_of_bytes (md5 (str_bytes (signed_body_string payload)))
    let h4 := h3.update (str_bytes payload_hash_digest)
    [("X-Date", req_time),
     ("Authorization",
       "HMAC-SHA256 Credential=" ++ access_key ++ ",Signature=" ++
         h4.hexdigest sha)]
  else []

/-! ## The player record (`src/utils/comlink/types/player/__init__.py`)

`Player` is a `TypedDict`: its fields are a static-typing annotation only,
and calling `Player(**data)` at runtime is plain dict construction, which
neither checks nor filters keys. -/

/-- The keys the `Player` TypedDict declares (lines 25–48 of
`types/player/__init__.py`), all required under the annotation. -/
def player_required_keys : List String :=
  ["rosterUnit", "profileStat", "pvpProfile", "unlockedPlayerTitle",
   "unlockedPlayerPortrait", "seasonStatus", "datacron", "name", "level",
   "allyCode", "playerId", "guildId", "guildName", "guildLogoBackground",
   "guildBannerColor", "guildBannerLogo", "selectedPlayerTitle", "guildTypeId",
   "localTimeZoneOffsetMinutes", "lastActivityTime", "selectedPlayerPortrait",
   "lifetimeSeasonScore", "playerRating"]

/-- Embedding of `Player(**data)` in `get_player` (line 314): TypedDict
construction is dict construction, so the decoded response mapping is
returned as is; no key is validated and no error can arise. -/
def get_player_result (response : List (String × Json)) :
    Except String (List (String × Json)) :=
  Except.ok response

/-! ## The localization line parser and startup pipeline

The loop of `create_localised_unit_name_dictionary` (lines 574–587) works on
the lines of the decoded `Loc_ENG_US.txt` text. The string operations it
uses — `split`, `startswith`, `endswith`, `in` — are embedded as recursive
functions on character lists so that their behaviour can both be executed
and reasoned about. -/

/-- Embedding of Python `str.split(sep)` for a one-character separator:
splitting the empty string gives one empty field, and every occurrence of
the separator opens a new field. -/
def split_char (c : Char) : List Char → List (List Char)
  | [] => [[]]
  | x :: xs =>
    if x = c then [] :: split_char c xs
    else
      match split_char c xs with
      | [] => [[x]]
      | y :: ys => (x :: y) :: ys

/-- Embedding of Python `s.startswith(p)` on character lists. -/
def starts_with : List Char → List Char → Bool
  | [], _ => true
  | _ :: _, [] => false
  | p :: ps, x :: xs => p = x && starts_with ps xs

/-- Embedding of Python `s.endswith(p)` on character lists. -/
def ends_with (p s : List Char) : Bool :=
  starts_with p.reverse s.reverse

/-- Embedding of Python `c in s` for a single character. -/
def has_char (c : Char) : List Char → Bool
  | [] => false
  | x :: xs => x = c || has_char c xs

/-- Dict assignment `unit_name_map[name_key] = desc` on the accumulated
insertion-ordered map. -/
def dict_insert (m : List (String × String)) (k v : String) :
    List (String × String) :=
  if m.any (fun e => e.1 == k) then
    m.map (fun e => if e.1 == k then (k, v) else e)
  else m ++ [(k, v)]

/-- Embedding of the loop body of lines 576–587, folded over the lines:
comment lines (leading `#`) and lines without a `|` are skipped; a line
starting with `UNIT_` is destructured by `name_key, desc = line.split("|")`,
which raises `ValueError` unless the split yields exactly two parts, i.e.
unless the line contains exactly one `|`; the entry is recorded only when
the key ends with `_NAME`. Other lines fall through. -/
def parse_locale_lines (acc : List (String × String)) :
    List (List Char) → Except String (List (String × String))
  | [] => Except.ok acc
  | line :: rest =>
    if starts_with "#".toList line then parse_locale_lines acc rest
    else if !has_char '|' line then parse_locale_lines acc rest
    else if starts_with "UNIT_".toList line then
      match split_char '|' line with
      | [name_key, desc] =>
        if ends_with "_NAME".toList name_key then
          parse_locale_lines (dict_insert acc ⟨name_key⟩ ⟨desc⟩) rest
        else parse_locale_lines acc rest
      | _ => Except.error "ValueError: too many values to unpack"
    else parse_locale_lines acc rest

/-- Embedding of the parsing stage of
`create_localised_unit_name_dictionary`: the decoded locale text is split on
newlines (`locale.split("\n")`, line 575) and folded through the loop. -/
def unit_name_map_of_locale (locale : String) :
    Except String (List (String × String)) :=
  parse_locale_lines [] (split_char '\n' locale.toList)

/-- Embedding of `create_localised_unit_name_dictionary` (lines 547–592):
the steps before parsing — the two version/bundle fetches, the base64
decode, the in-memory unzip and the UTF-8 decode — are network and external
library calls, modelled by their combined fallible outcome `bundle_text`;
the function contains no exception handler, so a failure of any step, or of
the parse itself, is the failure of the whole call. -/
def create_localised_unit_name_dictionary
    (bundle_text : Except String String) :
    Except String (List (String × String)) := do
  let locale ← bundle_text
  unit_name_map_of_locale locale

/-- Embedding of `ThrawnsGambit.on_ready` (`src/bot.py` lines 75–94): on a
reconnect (`_is_ready` already set) the pipeline is skipped; on first start
the pipeline is awaited with no surrounding `try`/`except`, so its failure
is the failure of `on_ready` itself — nothing in the repository downgrades
it to a warning or substitutes an empty map. -/
def on_ready (is_ready : Bool) (bundle_text : Except String String) :
    Except String (Option (List (String × String))) :=
  if is_ready then Except.ok none
  else (create_localised_unit_name_dictionary bundle_text).map some

/-! ## Helper lemmas -/

/-- Splitting a list free of the separator yields that single field. -/
theorem split_char_of_no_sep {c : Char} {l : List Char}
    (h : has_char c l = false) : split_char c l = [l] := by
  induction l with
  | nil => rfl
  | cons x xs ih =>
    simp only [has_char, Bool.or_eq_false_iff, decide_eq_false_iff_not] at h
    simp [split_char, h.1, ih h.2]

/-- Splitting past a separator occurrence peels off the separator-free part
before it as one field. -/
theorem split_char_append_sep {c : Char} {a b : List Char}
    (h : has_char c a = false) :
    split_char c (a ++ c :: b) = a :: split_char c b := by
  induction a with
  | nil => simp [split_char]
  | cons x xs ih =>
    simp only [has_char, Bool.or_eq_false_iff, decide_eq_false_iff_not] at h
    simp [split_char, h.1, ih h.2]

/-- A prefix of `a` is a prefix of `a ++ b`. -/
theorem starts_with_append {p a : List Char} (b : List Char)
    (h : starts_with p a = true) : starts_with p (a ++ b) = true := by
  induction p generalizing a with
  | nil => rfl
  | cons q qs ih =>
    cases a with
    | nil => simp [starts_with] at h
    | cons x xs =>
      simp only [starts_with, Bool.and_eq_true, decide_eq_true_eq] at h
      simp [starts_with, h.1, ih h.2]

/-- Two starting characters cannot disagree: a list starting with `p` does
not start with `q` when `p ≠ q`. -/
theorem starts_with_ne_head {p q : Char} {ps qs l : List Char}
    (hpq : p ≠ q) (h : starts_with (p :: ps) l = true) :
    starts_with (q :: qs) l = false := by
  cases l with
  | nil => simp [starts_with] at h
  | cons x xs =>
    simp only [starts_with, Bool.and_eq_true, decide_eq_true_eq] at h
    have hqx : q ≠ x := fun hq => hpq (h.1.trans hq.symm)
    simp [starts_with, hqx]

/-- Character containment distributes over append. -/
theorem has_char_append (c : Char) (a b : List Char) :
    has_char c (a ++ b) = (has_char c a || has_char c b) := by
  induction a with
  | nil => rfl
  | cons x xs ih => simp [has_char, ih, Bool.or_assoc]

/-- Splitting never yields an empty list of fields. -/
theorem split_char_cons (c : Char) (l : List Char) :
    ∃ y ys, split_char c l = y :: ys := by
  induction l with
  | nil => exact ⟨[], [], rfl⟩
  | cons x xs ih =>
    obtain ⟨y, ys, hy⟩ := ih
    by_cases hx : x = c
    · exact ⟨[], split_char c xs, by simp [split_char, hx]⟩
    · exact ⟨x :: y, ys, by simp [split_char, hx, hy]⟩

/-- A key absent from a table makes subscript access a `KeyError`. -/
theorem table_get_not_mem {table : List (String × Int)} {k : String}
    (h : k ∉ table.map Prod.fst) :
    table_get table k = Except.error ("KeyError: " ++ k) := by
  induction table with
  | nil => rfl
  | cons e rest ih =>
    simp only [List.map_cons, List.mem_cons] at h
    push_neg at h
    simp [table_get, Ne.symm h.1, ih h.2]

/-! ## Claim theorems -/

/-- Claim C1 (confirmed). With signing enabled, `_post` attaches exactly the
`X-Date` header carrying the request time verbatim and an `Authorization`
header of the form `HMAC-SHA256 Credential=<accessKey>,Signature=<hex>`,
where the hex digest is the keyed HMAC-SHA256 of the concatenation, in
order, of the request-time bytes, the literal bytes `POST`, the path bytes
with leading slash, and the bytes of the hex MD5 digest of the serialized
JSON body. Determinism over identical inputs is immediate, the embedding
being a pure function of exactly these inputs. -/
theorem post_signature_header (sha : List Nat → List Nat → List Nat)
    (md5 : List Nat → List Nat) (sk ak t e : String) (p : Option Json) :
    post_headers sha md5 sk ak t e p true =
      [("X-Date", t),
       ("Authorization",
         "HMAC-SHA256 Credential=" ++ ak ++ ",Signature=" ++
           hex_of_bytes (sha (str_bytes sk)
             (str_bytes t ++ str_bytes "POST" ++ str_bytes ("/" ++ e) ++
               str_bytes (hex_of_bytes (md5 (str_bytes (signed_body_string p)))))))] := by
  simp [post_headers, hmac_new, HmacState.update, HmacState.hexdigest,
    List.append_assoc]

/-- Claim C2 (corrected), counterexample: for the `get_events` envelope the
transmitted body bytes (default `json.dumps` separators, applied by the
transport to `json=payload`) are not the bytes whose MD5 digest was signed
(compact separators). -/
theorem signed_transmitted_differ_events :
    transmitted_body_string (some (get_events_payload false)) ≠
      some (signed_body_string (some (get_events_payload false))) := by
  decide

/-- Claim C2 (corrected), amended: the signature covers the compact
re-serialization of the envelope while the transport serializes with the
default separators, which insert a space after `,` and `:`; the two byte
strings agree for the empty envelope but differ for every `get_events`
envelope (and any other envelope whose serialization contains a separator). -/
theorem signed_vs_transmitted_amended :
    transmitted_body_string (some (Json.obj [])) =
      some (signed_body_string (some (Json.obj []))) ∧
    ∀ enums : Bool,
      transmitted_body_string (some (get_events_payload enums)) ≠
        some (signed_body_string (some (get_events_payload enums))) := by
  refine ⟨by decide, ?_⟩
  intro enums
  cases enums <;> decide

/-- Claim C3 (code_bug). With both an ally code and a player id supplied,
`_get_player_payload` emits only `allyCode`: the guard
`if not allycode and player_id` makes a truthy ally code win, contradicting
the claim and the source's own comment that the player id is preferred. -/
theorem player_payload_both_supplied :
    get_player_payload (some "123456789") (some "PLAYER1") false =
      Json.obj [("payload", Json.obj [("allyCode", Json.str "123456789")]),
                ("enums", Json.bool false)] := by
  rfl

/-- Claim C4 (corrected), counterexample: a type-4 leaderboard request with
both `event_instance_id` and `group_id` absent is not rejected — the
envelope is built, with JSON `null` in both fields, and handed to the
transport (`Except.ok` is exactly a dispatched payload in this embedding). -/
theorem leaderboard_type4_missing_ids_dispatches :
    get_leaderboard_payload 4 none none none none false =
      Except.ok (Json.obj
        [("payload", Json.obj
            [("leaderboardType", Json.num 4), ("eventInstanceId", Json.null),
             ("groupId", Json.null)]),
         ("enums", Json.bool false)]) := by
  rfl

/-- Claim C4 (corrected), amended: `get_leaderboard` performs no validation
of the type-4 identifiers; for every type-4 request (with no league or
division supplied) the payload is built with the given values — `null` for
absent ones — and dispatched, so no `ValidationError` precedes transport. -/
theorem leaderboard_type4_amended (eid gid : Option String) (enums : Bool) :
    get_leaderboard_payload 4 none none eid gid enums =
      Except.ok (Json.obj
        [("payload", Json.obj
            [("leaderboardType", Json.num 4),
             ("eventInstanceId", json_of_opt_str eid),
             ("groupId", json_of_opt_str gid)]),
         ("enums", Json.bool enums)]) := by
  rfl

/-- Claim C7 (corrected), counterexample: the empty response mapping lacks
every required top-level key of the `Player` record, yet `get_player`
returns it without error — `Player(**data)` is plain dict construction. -/
theorem get_player_empty_response_ok :
    get_player_result [] = Except.ok [] ∧
    player_required_keys.all
      (fun k => (([] : List (String × Json)).lookup k).isNone) = true := by
  exact ⟨rfl, by decide⟩

/-- Claim C7 (corrected), amended: `get_player` performs no runtime
validation: even when every required top-level key of the `Player` record is
absent from the decoded response, the mapping is returned unchanged and no
decode error is thrown. -/
theorem get_player_no_validation (data : List (String × Json))
    (_h : ∀ k ∈ player_required_keys, data.lookup k = none) :
    get_player_result data = Except.ok data := by
  rfl

/-- Witness for C7's amended theorem at the empty response. -/
theorem get_player_no_validation_witness :
    get_player_result [] = Except.ok [] :=
  get_player_no_validation [] (fun _ _ => rfl)

/-- Claim C8 (corrected), counterexample: a failing localization pipeline
step makes `on_ready` itself fail with that error — the failure is
propagated, not downgraded to a logged warning. -/
theorem on_ready_error_propagates :
    on_ready false (Except.error "zipfile.BadZipFile: File is not a zip file") =
      Except.error "zipfile.BadZipFile: File is not a zip file" := by
  rfl

/-- Claim C8 (corrected), amended: neither
`create_localised_unit_name_dictionary` nor `on_ready` contains a handler,
so every pipeline failure propagates unchanged out of `on_ready` to the
surrounding event runtime; the repository's own code logs no warning for it
and does not install an empty map. -/
theorem on_ready_amended (e : String) :
    on_ready false (Except.error e) = Except.error e := by
  rfl

/-- Claim C9 (corrected), counterexample: `get_game_metadata` with no
client-spec filter sends the bare empty object — its envelope has no
`payload` key and its serialized body is `{}`. -/
theorem metadata_empty_envelope :
    get_game_metadata_payload [] false = Json.obj [] ∧
    json_member (get_game_metadata_payload [] false) "payload" = none ∧
    dumps_default (get_game_metadata_payload [] false) = "\x7b\x7d" := by
  exact ⟨rfl, rfl, rfl⟩

/-- Claim C10 (confirmed). `get_guild` returns only the value under the
top-level `guild` key when the decoded response has one, and the entire
response mapping unchanged otherwise. -/
theorem get_guild_unwraps (response : List (String × Json)) :
    (∀ v, response.lookup "guild" = some v → get_guild_result response = v) ∧
    (response.lookup "guild" = none → get_guild_result response = Json.obj response) := by
  constructor
  · intro v h
    unfold get_guild_result
    rw [h]
  · intro h
    unfold get_guild_result
    rw [h]

/-- Witness for C10 at a response containing `guild` and one that lacks it. -/
theorem get_guild_unwraps_witness :
    get_guild_result [("guild", Json.num 1)] = Json.num 1 ∧
    get_guild_result [("x", Json.null)] = Json.obj [("x", Json.null)] :=
  ⟨(get_guild_unwraps [("guild", Json.num 1)]).1 (Json.num 1) rfl,
   (get_guild_unwraps [("x", Json.null)]).2 rfl⟩

/-- Claim C5 (confirmed). League names are lowercased before lookup, so any
spelling of `kyber` maps to 100 and of `chromium` to 60; the integer
division 2 maps to 20 through the division table; and a league name whose
lowercasing is not in the table raises `KeyError` — the rejection the spec's
taxonomy calls `ValidationError`, raised before any transport dispatch. -/
theorem leaderboard_normalization :
    (∀ s, py_lower s = "kyber" →
       normalize_league (some (PyPrim.pstr s)) =
         Except.ok (some (PyPrim.pint 100))) ∧
    (∀ s, py_lower s = "chromium" →
       normalize_league (some (PyPrim.pstr s)) =
         Except.ok (some (PyPrim.pint 60))) ∧
    normalize_division (some (PyPrim.pint 2)) =
      Except.ok (some (PyPrim.pint 20)) ∧
    (∀ s, py_lower s ∉ leagues.map Prod.fst →
       normalize_league (some (PyPrim.pstr s)) =
         Except.error ("KeyError: " ++ py_lower s)) := by
  refine ⟨?_, ?_, rfl, ?_⟩
  · intro s h
    simp only [normalize_league]
    rw [h]
    rfl
  · intro s h
    simp only [normalize_league]
    rw [h]
    rfl
  · intro s h
    simp only [normalize_league]
    rw [table_get_not_mem h]
    rfl

/-- Witness for C5 at concrete spellings and an unknown league name. -/
theorem leaderboard_normalization_witness :
    normalize_league (some (PyPrim.pstr "KyBeR")) =
      Except.ok (some (PyPrim.pint 100)) ∧
    normalize_league (some (PyPrim.pstr "Chromium")) =
      Except.ok (some (PyPrim.pint 60)) ∧
    normalize_division (some (PyPrim.pint 2)) =
      Except.ok (some (PyPrim.pint 20)) ∧
    normalize_league (some (PyPrim.pstr "plastic")) =
      Except.error ("KeyError: " ++ py_lower "plastic") :=
  ⟨leaderboard_normalization.1 "KyBeR" (by decide),
   leaderboard_normalization.2.1 "Chromium" (by decide),
   leaderboard_normalization.2.2.1,
   leaderboard_normalization.2.2.2 "plastic" (by decide)⟩

/-- Claim C6 (corrected), counterexample: a `UNIT_`-prefixed line holding two
`|` separators is not split on the first `|` — the two-name unpacking of
`line.split("|")` raises `ValueError`, so the claimed entry
`("UNIT_A_NAME", "x|y")` is never produced. -/
theorem unit_name_parser_two_pipes_error :
    unit_name_map_of_locale "UNIT_A_NAME|x|y" =
      Except.error "ValueError: too many values to unpack" := by
  rfl

/-- Claim C6 (corrected), amended: comment lines and separator-free lines
are skipped, and among the remaining lines those with exactly one `|` are
split into key and description, the entry kept exactly when the key starts
with `UNIT_` and ends with `_NAME`; but a `UNIT_`-prefixed line with two or
more `|` separators aborts the parse with a `ValueError` instead of being
split on the first `|`. -/
theorem unit_name_parser_amended :
    (∀ key desc : List Char,
       has_char '|' key = false → has_char '|' desc = false →
       has_char '\n' key = false → has_char '\n' desc = false →
       starts_with "UNIT_".toList key = true →
       ends_with "_NAME".toList key = true →
       unit_name_map_of_locale ⟨key ++ '|' :: desc⟩ =
         Except.ok [(⟨key⟩, ⟨desc⟩)]) ∧
    (∀ key d1 d2 : List Char,
       has_char '|' key = false → has_char '|' d1 = false →
       has_char '\n' key = false → has_char '\n' d1 = false →
       has_char '\n' d2 = false →
       starts_with "UNIT_".toList key = true →
       unit_name_map_of_locale ⟨key ++ '|' :: (d1 ++ '|' :: d2)⟩ =
         Except.error "ValueError: too many values to unpack") ∧
    unit_name_map_of_locale "UNIT_REYNOLDS_NAME|Rey" =
      Except.ok [("UNIT_REYNOLDS_NAME", "Rey")] ∧
    unit_name_map_of_locale "#comment" = Except.ok [] ∧
    unit_name_map_of_locale "a line with no separator" = Except.ok [] ∧
    unit_name_map_of_locale "UNIT_FOO_TITLE|Bar" = Except.ok [] := by
  refine ⟨?_, ?_, rfl, rfl, rfl, rfl⟩
  · intro key desc h1 h2 h3 h4 h5 h6
    have hnl : has_char '\n' (key ++ '|' :: desc) = false := by
      rw [has_char_append]
      simp [has_char, h3, h4]
    have hpipe : has_char '|' (key ++ '|' :: desc) = true := by
      rw [has_char_append]
      simp [has_char]
    have hunit : starts_with "UNIT_".toList (key ++ '|' :: desc) = true :=
      starts_with_append _ h5
    have hhash : starts_with "#".toList (key ++ '|' :: desc) = false :=
      starts_with_ne_head (by decide) hunit
    show parse_locale_lines [] (split_char '\n' (key ++ '|' :: desc)) = _
    rw [split_char_of_no_sep hnl]
    simp only [parse_locale_lines, hhash, hpipe, hunit,
      split_char_append_sep h1, split_char_of_no_sep h2, h6]
    simp [dict_insert, parse_locale_lines]
  · intro key d1 d2 h1 h2 h3 h4 h5 h6
    have hnl : has_char '\n' (key ++ '|' :: (d1 ++ '|' :: d2)) = false := by
      rw [has_char_append]
      simp [has_char, has_char_append, h3, h4, h5]
    have hpipe : has_char '|' (key ++ '|' :: (d1 ++ '|' :: d2)) = true := by
      rw [has_char_append]
      simp [has_char]
    have hunit :
        starts_with "UNIT_".toList (key ++ '|' :: (d1 ++ '|' :: d2)) = true :=
      starts_with_append _ h6
    have hhash :
        starts_with "#".toList (key ++ '|' :: (d1 ++ '|' :: d2)) = false :=
      starts_with_ne_head (by decide) hunit
    obtain ⟨y, ys, hy⟩ := split_char_cons '|' d2
    show parse_locale_lines []
        (split_char '\n' (key ++ '|' :: (d1 ++ '|' :: d2))) = _
    rw [split_char_of_no_sep hnl]
    simp only [parse_locale_lines, hhash, hpipe, hunit,
      split_char_append_sep h1, split_char_append_sep h2, hy]
    simp

/-- Witness for C6's amended theorem at the spec's example line and at a
two-separator line. -/
theorem unit_name_parser_amended_witness :
    unit_name_map_of_locale
        ⟨"UNIT_REYNOLDS_NAME".toList ++ '|' :: "Rey".toList⟩ =
      Except.ok [(⟨"UNIT_REYNOLDS_NAME".toList⟩, ⟨"Rey".toList⟩)] ∧
    unit_name_map_of_locale
        ⟨"UNIT_A_NAME".toList ++ '|' :: ("x".toList ++ '|' :: "y".toList)⟩ =
      Except.error "ValueError: too many values to unpack" :=
  ⟨unit_name_parser_amended.1 "UNIT_REYNOLDS_NAME".toList "Rey".toList
     (by decide) (by decide) (by decide) (by decide) (by decide) (by decide),
   unit_name_parser_amended.2.1 "UNIT_A_NAME".toList "x".toList "y".toList
     (by decide) (by decide) (by decide) (by decide) (by decide) (by decide)⟩

/-- Claim C9 (corrected), amended: every envelope built by the client's
payload builders carries the `payload` key — even an empty one — with the
single exception of `get_game_metadata` with a falsy client-spec filter,
whose envelope is the bare empty object. -/
theorem envelope_payload_key_amended :
    (∀ enums, (json_member (get_events_payload enums) "payload").isSome = true) ∧
    (∀ v pve seg enums,
       (json_member (get_game_data_payload v pve seg enums) "payload").isSome = true) ∧
    (∀ id uz enums,
       (json_member (get_localization_payload id uz enums) "payload").isSome = true) ∧
    (∀ a p enums,
       (json_member (get_player_payload a p enums) "payload").isSome = true) ∧
    (∀ a p pdo enums,
       (json_member (get_player_arena_payload a p pdo enums) "payload").isSome = true) ∧
    (∀ g inc enums,
       (json_member (get_guild_payload g inc enums) "payload").isSome = true) ∧
    (∀ n si c enums,
       (json_member (get_guilds_by_name_payload n si c enums) "payload").isSome = true) ∧
    (∀ sc si c enums,
       (json_member (get_guilds_by_criteria_payload sc si c enums) "payload").isSome = true) ∧
    (∀ lid c enums,
       (json_member (get_guild_leaderboard_payload lid c enums) "payload").isSome = true) ∧
    (∀ lt league division eid gid enums env,
       get_leaderboard_payload lt league division eid gid enums = Except.ok env →
       (json_member env "payload").isSome = true) ∧
    (∀ spec rest enums,
       (json_member (get_game_metadata_payload (spec :: rest) enums) "payload").isSome = true) ∧
    get_game_metadata_payload [] false = Json.obj [] := by
  refine ⟨fun _ => rfl, fun _ _ _ _ => rfl, fun _ _ _ => rfl, fun _ _ _ => rfl,
    ?_, fun _ _ _ => rfl, fun _ _ _ _ => rfl, fun _ _ _ _ => rfl,
    fun _ _ _ => rfl, ?_, fun _ _ _ => rfl, rfl⟩
  · intro a p pdo enums
    rfl
  · intro lt league division eid gid enums env h
    cases hl : normalize_league league with
    | error e =>
        simp [get_leaderboard_payload, hl, Bind.bind, Except.bind] at h
    | ok l =>
        cases hd : normalize_division division with
        | error e =>
            simp [get_leaderboard_payload, hl, hd, Bind.bind, Except.bind] at h
        | ok d =>
            simp only [get_leaderboard_payload, hl, hd, Bind.bind,
              Except.bind, Except.ok.injEq] at h
            subst h
            rfl

/-- Witness for C9's amended theorem: the `get_events` envelope and a
dispatched leaderboard envelope both carry the `payload` key. -/
theorem envelope_payload_key_witness :
    (json_member (get_events_payload false) "payload").isSome = true ∧
    (json_member
        (Json.obj
          [("payload", Json.obj
              [("leaderboardType", Json.num 6), ("league", Json.null),
               ("division", Json.null)]),
           ("enums", Json.bool false)]) "payload").isSome = true :=
  ⟨envelope_payload_key_amended.1 false,
   envelope_payload_key_amended.2.2.2.2.2.2.2.2.2.1 6 none none none none false
     (Json.obj
       [("payload", Json.obj
           [("leaderboardType", Json.num 6), ("league", Json.null),
            ("division", Json.null)]),
        ("enums", Json.bool false)]) rfl⟩

end ThrawnsGambit
